import Mathlib

set_option maxRecDepth 20000

/-!
Verification development for the mongo-mcp repository.

The repository has two server variants:
* `src/mongo.py` — a classic MCP server exposing resource / prompt / tool
  handlers over a `MongoDatabase` object holding an insight ledger
  (`self.insights : list[str]`) and a memo renderer (`_synthesize_memo`).
* `src/src/mcp_server_mongo/server.py` — a FastMCP variant exposing the
  five tools directly, with its own `MongoDatabase` class.

Below, the data model and the operations the claims touch are embedded
shallowly: Python strings become `String`, lists become `List`,
dictionaries become association lists, exceptions become `Except PyExn`,
and stateful handlers become explicit state-passing functions.  The
MongoDB driver and the JSON parser are external collaborators and are
abstracted as a record of response functions (`Env`).
-/

/-- A Python exception, tagged with its class and carrying `str(e)`. -/
inductive PyExn where
  | typeError (m : String)
  | keyError (m : String)
  | valueError (m : String)
  | attributeError (m : String)
  | invalidName (m : String)
  | configurationError (m : String)
  | driverError (m : String)
  deriving Repr, DecidableEq

/-- Python `str(e)` for an exception: the message the dispatcher interpolates
into `f"Error: ..."`. -/
def PyExn.msg : PyExn → String
  | .typeError m => m
  | .keyError m => m
  | .valueError m => m
  | .attributeError m => m
  | .invalidName m => m
  | .configurationError m => m
  | .driverError m => m

/-- Python `"\n".join(l)`: the empty string on `[]`, otherwise the elements
separated by single newlines. -/
def joinNl : List String → String
  | [] => ""
  | [a] => a
  | a :: b :: t => a ++ "\n" ++ joinNl (b :: t)

/-- The fixed sentinel returned for an empty ledger
(src/mongo.py line 114). -/
def emptyLedgerSentinel : String := "No business insights have been discovered yet."

/-- The templated summary sentence of `_synthesize_memo`
(src/mongo.py line 124), interpolating the entry count. -/
def summarySentence (n : Nat) : String :=
  "Analysis has revealed " ++ toString n ++
    " key business insights that suggest opportunities for strategic optimization and growth."

/-- `MongoDatabase._synthesize_memo` (src/mongo.py lines 110–127), as a
function of the insight ledger `self.insights`.  The method reads the
ledger and performs no writes. -/
def synthesize_memo (insights : List String) : String :=
  if insights = [] then
    emptyLedgerSentinel
  else
    let bullets := joinNl (insights.map (fun insight => "- " ++ insight))
    let memo := "📊 Business Intelligence Memo 📊\n\n"
    let memo := memo ++ "Key Insights Discovered:\n\n"
    let memo := memo ++ bullets
    let memo :=
      if insights.length > 1 then
        memo ++ "\nSummary:\n" ++ summarySentence insights.length
      else
        memo
    memo

/-- The four leading lines of a non-empty memo: the fixed header line, a
blank line, the fixed section title, and a blank line. -/
def memoHeaderLines : List String :=
  ["📊 Business Intelligence Memo 📊", "", "Key Insights Discovered:", ""]

/-- The trailing summary-block lines when the entry count `n` exceeds 1:
the `Summary:` label line immediately followed by the templated sentence
(no blank line precedes the label in the code). -/
def memoSummaryLines (n : Nat) : List String :=
  if 1 < n then ["Summary:", summarySentence n] else []

/-- Modelled from the words of claim C2 (not from the source): a fixed
header line, a blank line, a fixed section title, then one bullet line
per entry; a summary block consisting of a blank line, a `Summary:`
label, and the templated sentence is appended iff the count exceeds 1.
Used only to compare the claim against the implementation. -/
def claimedMemoC2 (insights : List String) : String :=
  joinNl (["📊 Business Intelligence Memo 📊", "", "Key Insights Discovered:"]
    ++ insights.map (fun i => "- " ++ i)
    ++ (if 1 < insights.length then ["", "Summary:", summarySentence insights.length] else []))

/-- Modelled from the spec: the Insight Ledger operation
`append(text: string) -> void` (spec §4.1), which the repository never
wires to any handler — no code under src/ appends to `insights`, so the
operation exists only in the spec.  It appends `text` verbatim to the
ordered sequence, with no constraint on content or length and no error
condition. -/
def ledgerAppend (insights : List String) (text : String) : List String :=
  insights ++ [text]

/-- A JSON-like Python value travelling through the tool boundary. -/
inductive PyValue where
  | str (s : String)
  | num (n : Int)
  | bool (b : Bool)
  | dict (entries : List (String × PyValue))
  | arr (elems : List PyValue)
  | pynone

/-- Python dictionary lookup `d.get(k)` on an association list. -/
def dictGet (entries : List (String × PyValue)) (k : String) : Option PyValue :=
  (entries.find? (fun p => p.1 == k)).map (fun p => p.2)

/-- Python `d.get(k, default)`. -/
def argGetD (bag : List (String × PyValue)) (k : String) (d : PyValue) : PyValue :=
  (dictGet bag k).getD d

/-- Python subscript `d[k]`, raising `KeyError` when the key is absent. -/
def pyIndex (d : List (String × PyValue)) (k : String) : Except PyExn PyValue :=
  match dictGet d k with
  | some v => .ok v
  | Option.none => .error (.keyError k)

/-- A bounded-depth rendering of Python `str()` on a JSON-like value.
No claim depends on the exact repr text; the bound only keeps the
function structurally recursive. -/
def pyStrAux : Nat → PyValue → String
  | _, .str s => s
  | _, .num n => toString n
  | _, .bool b => if b then "True" else "False"
  | _, .pynone => "None"
  | 0, .dict _ => "\x7b…\x7d"
  | 0, .arr _ => "[…]"
  | fuel + 1, .dict entries =>
      "\x7b" ++ String.intercalate ", "
        (entries.map (fun p => p.1 ++ ": " ++ pyStrAux fuel p.2)) ++ "\x7d"
  | fuel + 1, .arr elems =>
      "[" ++ String.intercalate ", " (elems.map (fun e => pyStrAux fuel e)) ++ "]"

/-- Python `str()` of a JSON-like value. -/
def pyStr (v : PyValue) : String := pyStrAux 1000 v

/-- An MCP `types.TextContent` result item (the `type="text"` tag is
constant in the source and omitted). -/
structure TextContent where
  text : String
  deriving Repr, DecidableEq

/-- The external collaborators of the dispatcher — the MongoDB driver
operations and `json.loads` — abstracted as response functions.  Each
returns either a value or the exception the library raised.  The string
results stand for the `str(...)` of whatever driver object the code
stringifies.  `get_database` is the clients default database: it raises
`ConfigurationError` when the connection URI names none. -/
structure Env where
  get_database : Except PyExn String
  find : String → PyValue → PyValue → PyValue → Except PyExn String
  aggregate : String → PyValue → Except PyExn String
  buildInfo : Except PyExn (List (String × PyValue))
  listCollections : PyValue → Except PyExn String
  listCollectionsDocs : Except PyExn (List (List (String × PyValue)))
  countDocuments : String → PyValue → Except PyExn Int
  jsonLoads : String → Except PyExn PyValue

/-- Python `s.startswith(pre)`. -/
def pyStartsWith (s pre : String) : Bool :=
  pre.data.isPrefixOf s.data

/-- Python substring membership `sub in s`. -/
def pyContains (s sub : String) : Bool :=
  s.data.tails.any (fun t => sub.data.isPrefixOf t)

/-- The collection-name validation of the pymongo `Collection`
constructor, which `get_collection` runs before the `try:` of the
dispatcher: an empty name or a name containing `..`, a name containing
a dollar character (outside the two oplog/cmd escape hatches), a name
starting or ending with a period, and a name containing the null
character each raise `InvalidName`. -/
def checkCollectionName (name : String) : Except PyExn Unit :=
  if (name == "") || pyContains name ".." then
    .error (.invalidName "collection names cannot be empty")
  else if pyContains name "$" &&
      !(pyStartsWith name "oplog.$main" || pyStartsWith name "$cmd") then
    .error (.invalidName ("collection names must not contain the dollar character: " ++ name))
  else if (name.data.head? == some '.') || (name.data.getLast? == some '.') then
    .error (.invalidName ("collection names must not start or end with a period: " ++ name))
  else if name.data.contains '\x00' then
    .error (.invalidName "collection names must not contain the null character")
  else
    .ok ()

/-- The `serverInfo` re-shaping (src/mongo.py lines 380–396 and
src/src/mcp_server_mongo/server.py lines 63–79): thirteen subscript
reads of `build_info` — each raising `KeyError` when absent — assembled
into the fixed field allowlist with an empty `status`. -/
def shapeServerInfo (build_info : List (String × PyValue)) : Except PyExn PyValue := do
  let version ← pyIndex build_info "version"
  let gitVersion ← pyIndex build_info "gitVersion"
  let modules ← pyIndex build_info "modules"
  let allocator ← pyIndex build_info "allocator"
  let javascriptEngine ← pyIndex build_info "javascriptEngine"
  let sysInfo ← pyIndex build_info "sysInfo"
  let storageEngines ← pyIndex build_info "storageEngines"
  let debug ← pyIndex build_info "debug"
  let maxBsonObjectSize ← pyIndex build_info "maxBsonObjectSize"
  let openssl ← pyIndex build_info "openssl"
  let buildEnvironment ← pyIndex build_info "buildEnvironment"
  let bits ← pyIndex build_info "bits"
  let ok ← pyIndex build_info "ok"
  pure (.dict
    [("version", version), ("gitVersion", gitVersion), ("modules", modules),
     ("allocator", allocator), ("javascriptEngine", javascriptEngine),
     ("sysInfo", sysInfo), ("storageEngines", storageEngines), ("debug", debug),
     ("maxBsonObjectSize", maxBsonObjectSize), ("openssl", openssl),
     ("buildEnvironment", buildEnvironment), ("bits", bits), ("ok", ok),
     ("status", .dict [])])

/-- The filter translation of the `query` branch
(src/mongo.py lines 356–363): start from `{}`, take a dict argument as
is, parse a string argument with `json.loads` (whose exception is
raised inside the `try:`), and ignore arguments of any other type. -/
def queryFilter (env : Env) (bag : List (String × PyValue)) : Except PyExn PyValue :=
  match dictGet bag "filter" with
  | some (.dict d) => .ok (PyValue.dict d)
  | some (.str s) => env.jsonLoads s
  | some _ => .ok (PyValue.dict [])
  | Option.none => .ok (PyValue.dict [])

/-- Body of the `try:` block of `handle_call_tool`
(src/mongo.py lines 354–411), dispatching on the tool name.  An
`Except.error` here is an exception raised inside the `try` and caught
by the boundary handler. -/
def callToolBody (env : Env) (name : String) (bag : List (String × PyValue))
    (collName : String) : Except PyExn (List TextContent) :=
  if name == "query" then
    if pyStartsWith collName "system." then
      .error (.valueError "Access to system collections is not allowed")
    else
      (queryFilter env bag).bind (fun filter =>
          let limit := argGetD bag "limit" (.num 100)
          let projection := argGetD bag "projection" (.dict [])
          (env.find collName filter limit projection).map
            (fun results => [{ text := results }]))
  else if name == "aggregate" then
    if bag.isEmpty || (dictGet bag "pipeline").isNone then
      .error (.valueError "Missing pipeline argument")
    else
      match dictGet bag "pipeline" with
      | some pipeline =>
          (env.aggregate collName pipeline).map (fun r => [{ text := r }])
      | Option.none => .error (.valueError "Missing pipeline argument")
  else if name == "serverInfo" then
    env.buildInfo.bind (fun build_info =>
      (shapeServerInfo build_info).map (fun server_info => [{ text := pyStr server_info }]))
  else if name == "listCollections" then
    let filter := argGetD bag "filter" (.dict [])
    (env.listCollections filter).map (fun r => [{ text := r }])
  else if name == "count" then
    let query := argGetD bag "query" (.dict [])
    (env.countDocuments collName query).map (fun c => [{ text := toString c }])
  else
    .error (.valueError ("Unknown tool: " ++ name))

/-- The `except Exception` boundary of `handle_call_tool`
(src/mongo.py lines 413–414): a caught exception becomes the in-band
text result `"Error: " ++ str(e)`. -/
def runBody (body : Except PyExn (List TextContent)) : List TextContent :=
  match body with
  | .ok r => r
  | .error e => [{ text := "Error: " ++ e.msg }]

/-- `handle_call_tool` (src/mongo.py lines 348–414).  The whole prelude
chain `db.client.get_database().get_collection(arguments["collection"])`
on line 353 runs before the `try:` on line 354, so each of its failure
paths propagates to the host (`Except.error`), in evaluation order:
`get_database()` may raise `ConfigurationError`, the subscript
`arguments["collection"]` raises `TypeError` on a `None` bag and
`KeyError` on a missing key, and `get_collection` raises `TypeError`
for a non-string name and `InvalidName` for a name failing pymongo
validation.  Everything raised inside the body is converted to an
in-band `"Error: ..."` text by the boundary handler (`Except.ok`). -/
def handle_call_tool (env : Env) (name : String)
    (arguments : Option (List (String × PyValue))) : Except PyExn (List TextContent) :=
  env.get_database.bind (fun _ =>
    match arguments with
    | Option.none => .error (.typeError "NoneType object is not subscriptable")
    | some bag =>
      match dictGet bag "collection" with
      | Option.none => .error (.keyError "collection")
      | some (.str collName) =>
          (checkCollectionName collName).map (fun _ =>
            runBody (callToolBody env name bag collName))
      | some _ => .error (.typeError "name must be an instance of str"))

/-- Replacement loop of Python `str.replace` on character lists:
leftmost non-overlapping occurrences of `old` are replaced by `new`.
The fuel is the length of the subject string; each step consumes at
least one character when `old` is non-empty, so the fuel never runs
out on the inputs `pyStrReplace` passes. -/
def pyReplaceAux (old new : List Char) : Nat → List Char → List Char
  | 0, s => s
  | _ + 1, [] => []
  | fuel + 1, c :: rest =>
      if old.isPrefixOf (c :: rest) then
        new ++ pyReplaceAux old new fuel ((c :: rest).drop old.length)
      else
        c :: pyReplaceAux old new fuel rest

/-- Python `s.replace(old, new)` for non-empty `old`: every
non-overlapping occurrence of `old`, scanned left to right, becomes
`new`. -/
def pyStrReplace (s old new : String) : String :=
  if old = "" then s
  else ⟨pyReplaceAux old.data new.data s.data.length s.data⟩

/-- A resource URI as the handler sees it: pydantic scheme accessor plus
the full textual form `scheme ++ "://" ++ rest`. -/
structure Uri where
  scheme : String
  rest : String

/-- Python `str(uri)`. -/
def Uri.toStr (u : Uri) : String := u.scheme ++ "://" ++ u.rest

/-- `handle_read_resource` (src/mongo.py lines 151–163): reject non-memo
schemes, strip the `memo://` marker from the textual URI, reject any
path other than `insights`, and otherwise return the synthesized memo.
A raised `ValueError` is an `Except.error`. -/
def handle_read_resource (insights : List String) (uri : Uri) : Except PyExn String :=
  if uri.scheme ≠ "memo" then
    .error (.valueError ("Unsupported URI scheme: " ++ uri.scheme))
  else
    let path := pyStrReplace (Uri.toStr uri) "memo://" ""
    if path = "" ∨ path ≠ "insights" then
      .error (.valueError ("Unknown resource path: " ++ path))
    else
      .ok (synthesize_memo insights)

/-- A resource declaration as returned by `handle_list_resources`
(src/mongo.py lines 139–149). -/
structure ResourceDecl where
  uri : String
  name : String
  mimeType : String
  deriving Repr, DecidableEq

/-- `handle_list_resources` (src/mongo.py lines 139–149): the single
memo resource. -/
def handle_list_resources : List ResourceDecl :=
  [{ uri := "memo://insights", name := "Business Insights Memo", mimeType := "text/plain" }]

/-- `handle_list_prompts` (src/mongo.py lines 165–180): the single
`mcp-demo` prompt (its one required argument is `topic`). -/
def handle_list_prompts : List String := ["mcp-demo"]

/-- `handle_get_prompt` (src/mongo.py lines 182–207): validation of the
prompt name and of the required `topic` argument; the successful result
is modelled by the `description` field built on line 200. -/
def handle_get_prompt (name : String) (arguments : Option (List (String × String))) :
    Except PyExn String :=
  if name ≠ "mcp-demo" then
    .error (.valueError ("Unknown prompt: " ++ name))
  else
    match arguments with
    | Option.none => .error (.valueError "Missing required argument: topic")
    | some args =>
      match (args.find? (fun p => p.1 == "topic")).map (fun p => p.2) with
      | Option.none => .error (.valueError "Missing required argument: topic")
      | some topic => .ok ("Demo template for " ++ topic)

/-- A tool declaration: its name and the `required` list of its declared
input schema (absent `required` keys are the empty list). -/
structure ToolDecl where
  name : String
  required : List String
  deriving Repr, DecidableEq

/-- `handle_list_tools` (src/mongo.py lines 209–346): the five declared
tools with the `required` lists of their schemas. -/
def handle_list_tools : List ToolDecl :=
  [ { name := "query", required := ["collection"] },
    { name := "aggregate", required := ["collection", "pipeline"] },
    { name := "serverInfo", required := [] },
    { name := "count", required := [] },
    { name := "listCollections", required := [] } ]

/-- The declared `required` list of a tool, if the tool is declared. -/
def toolRequired (name : String) : Option (List String) :=
  (handle_list_tools.find? (fun t => t.name == name)).map (fun t => t.required)

namespace FastServer

/-- The `query` tool of src/src/mcp_server_mongo/server.py
(lines 30–46): forwards collection, filter, limit and projection to the
driver `find` with no collection-name restriction, and returns the
stringified result list. -/
def query (env : Env) (collection : String) (filter : PyValue) (projection : PyValue)
    (limit : PyValue) : Except PyExn String :=
  env.find collection filter limit projection

/-- The `aggregate` tool of src/src/mcp_server_mongo/server.py
(lines 49–58). -/
def aggregate (env : Env) (collection : String) (pipeline : PyValue) :
    Except PyExn String :=
  env.aggregate collection pipeline

/-- The `serverInfo` tool of src/src/mcp_server_mongo/server.py
(lines 61–80). -/
def serverInfo (env : Env) : Except PyExn String :=
  env.buildInfo.bind (fun build_info =>
    (shapeServerInfo build_info).map (fun server_info => pyStr server_info))

/-- The `listCollections` tool of src/src/mcp_server_mongo/server.py
(lines 83–90): extracts the `name` field of every collection document. -/
def listCollections (env : Env) : Except PyExn String :=
  env.listCollectionsDocs.bind (fun docs =>
    (docs.mapM (fun d => pyIndex d "name")).map (fun names => pyStr (.arr names)))

/-- The `count` tool of src/src/mcp_server_mongo/server.py
(lines 93–97). -/
def count (env : Env) (collection : String) (filter : PyValue) : Except PyExn String :=
  (env.countDocuments collection filter).map (fun c => toString c)

end FastServer

/-- The process-wide mutable state the handlers share: the insight
ledger of the `MongoDatabase` object. -/
structure ServerState where
  insights : List String
  deriving Repr, DecidableEq

/-- One inbound request to either server variant, with the driver
responses it observes. -/
inductive Op where
  | listResources
  | readResource (uri : Uri)
  | listPrompts
  | getPrompt (name : String) (args : Option (List (String × String)))
  | listTools
  | callTool (env : Env) (name : String) (args : Option (List (String × PyValue)))
  | fastQuery (env : Env) (collection : String) (filter projection limit : PyValue)
  | fastAggregate (env : Env) (collection : String) (pipeline : PyValue)
  | fastServerInfo (env : Env)
  | fastListCollections (env : Env)
  | fastCount (env : Env) (collection : String) (filter : PyValue)

/-- The state transition of one handled request.  Every handler body in
both source files reads `db.insights` at most (via `_synthesize_memo`)
and contains no assignment to it, so each branch returns the state it
was given. -/
def step (s : ServerState) (op : Op) : ServerState :=
  match op with
  | .listResources => s
  | .readResource _ => s
  | .listPrompts => s
  | .getPrompt _ _ => s
  | .listTools => s
  | .callTool _ _ _ => s
  | .fastQuery _ _ _ _ _ => s
  | .fastAggregate _ _ _ => s
  | .fastServerInfo _ => s
  | .fastListCollections _ => s
  | .fastCount _ _ _ => s

/-- The states the server can reach from startup: `self.insights = []`
followed by any sequence of handled requests. -/
inductive Reachable : ServerState → Prop where
  | init : Reachable ⟨[]⟩
  | step (s : ServerState) (op : Op) : Reachable s → Reachable (step s op)

/-- The attribute record of a `MongoDatabase` instance in src/mongo.py:
each attribute is `Option`-valued, `none` while unassigned; reading an
unassigned attribute raises `AttributeError`. -/
structure MongoDatabaseObj where
  db_uri : Option String
  db_path : Option String
  client : Option String
  insights : Option (List String)

/-- Python attribute read `self.<name>`. -/
def readAttr {α : Type} (field : Option α) (name : String) : Except PyExn α :=
  match field with
  | some v => .ok v
  | Option.none => .error (.attributeError name)

/-- `MongoDatabase._init_database` (src/mongo.py lines 105–108): reads
`self.db_path` — an attribute no statement ever assigns — and would
store the `MongoClient` built from it. -/
def init_database (self : MongoDatabaseObj) : Except PyExn MongoDatabaseObj :=
  (readAttr self.db_path "db_path").map (fun p => { self with client := some p })

/-- `MongoDatabase.__init__` (src/mongo.py lines 100–103): assign
`self.db_uri`, call `_init_database`, then initialize `self.insights`
to the empty list. -/
def mongoDatabaseNew (db_uri : String) : Except PyExn MongoDatabaseObj := do
  let self : MongoDatabaseObj :=
    { db_uri := Option.none, db_path := Option.none,
      client := Option.none, insights := Option.none }
  let self := { self with db_uri := some db_uri }
  let self ← init_database self
  pure { self with insights := some [] }

/-- `main` (src/mongo.py lines 130–134) up to handler registration:
construct the `MongoDatabase`, then register the handlers.  The marker
string stands for reaching the registration code. -/
def mongoMain (db_uri : String) : Except PyExn String :=
  (mongoDatabaseNew db_uri).map (fun _ => "handlers-registered")

/-- The render operation on the server state: `_synthesize_memo` reads
`self.insights` and performs no assignment, so the explicit-state form
returns the state unchanged next to the computed memo. -/
def render (s : ServerState) : ServerState × String :=
  (s, synthesize_memo s.insights)

/-- A concrete environment used to instantiate theorems at concrete
inputs: every driver call succeeds with a fixed response. -/
def testEnv : Env :=
  { get_database := .ok "test-db",
    find := fun _ _ _ _ => .ok "find-results",
    aggregate := fun _ _ => .ok "aggregate-results",
    buildInfo := .ok [],
    listCollections := fun _ => .ok "collections",
    listCollectionsDocs := .ok [],
    countDocuments := fun _ _ => .ok 0,
    jsonLoads := fun _ => .ok (.dict []) }

theorem joinNl_cons (a : String) (l : List String) (h : l ≠ []) :
    joinNl (a :: l) = a ++ ("\n" ++ joinNl l) := by
  cases l with
  | nil => exact absurd rfl h
  | cons b t => simp [joinNl, String.append_assoc]

theorem joinNl_pair (a b : String) : joinNl [a, b] = a ++ ("\n" ++ b) := by
  simp [joinNl, String.append_assoc]

theorem joinNl_append (xs ys : List String) (hx : xs ≠ []) (hy : ys ≠ []) :
    joinNl (xs ++ ys) = joinNl xs ++ ("\n" ++ joinNl ys) := by
  induction xs with
  | nil => exact absurd rfl hx
  | cons a xs ih =>
    cases xs with
    | nil =>
      simpa [joinNl] using joinNl_cons a ys hy
    | cons b t =>
      rw [List.cons_append, joinNl_cons a ((b :: t) ++ ys) (by simp),
        joinNl_cons a (b :: t) (by simp), ih (by simp)]
      simp [String.append_assoc]

/-- Line structure of `_synthesize_memo` on a non-empty ledger: the memo is
the newline-join of the header lines, one bullet per entry in insertion
order, and — exactly when the count exceeds 1 — the summary lines. -/
theorem synthesize_memo_eq_joinNl (l : List String) (h : l ≠ []) :
    synthesize_memo l =
      joinNl (memoHeaderLines ++ (l.map (fun i => "- " ++ i) ++ memoSummaryLines l.length)) := by
  have hB : l.map (fun i => "- " ++ i) ≠ [] := by simpa using h
  have hA : "📊 Business Intelligence Memo 📊\n\n" ++ "Key Insights Discovered:\n\n" =
      joinNl memoHeaderLines ++ "\n" := by decide
  by_cases h1 : 1 < l.length
  · rw [joinNl_append memoHeaderLines _ (by decide) (by simp [hB]),
      joinNl_append _ _ hB (by simp [memoSummaryLines, h1]),
      show memoSummaryLines l.length = ["Summary:", summarySentence l.length] from by
        simp [memoSummaryLines, h1],
      joinNl_pair]
    simp only [synthesize_memo, if_neg h, if_pos (show l.length > 1 from h1)]
    rw [← String.append_assoc, hA]
    have hC : "\nSummary:\n" = "\n" ++ ("Summary:" ++ "\n") := by decide
    rw [hC]
    simp only [String.append_assoc]
  · rw [show memoSummaryLines l.length = [] from by simp [memoSummaryLines, h1],
      List.append_nil, joinNl_append memoHeaderLines _ (by decide) hB]
    simp only [synthesize_memo, if_neg h, if_neg (show ¬ l.length > 1 from h1)]
    rw [← String.append_assoc, hA]

/-- C1: on the initial (empty) ledger, `_synthesize_memo` returns exactly
the sentinel string and nothing else. -/
theorem c1_empty_ledger_sentinel :
    synthesize_memo [] = "No business insights have been discovered yet." := by
  decide

/-- C2 (counterexample): with ledger `["A", "B"]` the rendered memo is not
the layout the claim describes — the code emits a blank line after the
section title, which the claim omits, and no blank line before the
`Summary:` label, which the claim requires. -/
theorem c2_counterexample : synthesize_memo ["A", "B"] ≠ claimedMemoC2 ["A", "B"] := by
  decide

/-- C2 (amended): for every non-empty ledger, render returns the fixed
header line, a blank line, the fixed section title, a further blank line,
then one line `"- " ++ text` per entry joined by newlines in insertion
order; a summary block — the `Summary:` label line immediately followed
by the templated sentence interpolating the entry count, with no blank
line before the label — is appended iff the entry count exceeds 1; in
particular with exactly one entry there is no summary block. -/
theorem c2_nonempty_render (l : List String) (h : l ≠ []) :
    synthesize_memo l =
      joinNl (memoHeaderLines ++ (l.map (fun i => "- " ++ i) ++ memoSummaryLines l.length)) :=
  synthesize_memo_eq_joinNl l h

/-- C2 witness: the amended statement instantiated at the three-entry
ledger `["A", "B", "C"]`. -/
theorem c2_nonempty_render_witness :
    synthesize_memo ["A", "B", "C"] =
      joinNl (memoHeaderLines ++
        ((["A", "B", "C"].map (fun i => "- " ++ i)) ++
          memoSummaryLines (["A", "B", "C"] : List String).length)) :=
  c2_nonempty_render ["A", "B", "C"] (by decide)

/-- C7: render is deterministic and side-effect free — it leaves the
ledger state unchanged, and a second render performed on the state the
first one returns yields a byte-identical string. -/
theorem c7_render_pure (s : ServerState) :
    (render s).1 = s ∧ (render (render s).1).2 = (render s).2 :=
  ⟨rfl, rfl⟩

/-- C9: for every `db_uri`, constructing `MongoDatabase` in src/mongo.py
raises `AttributeError` for `db_path` — `_init_database` reads
`self.db_path`, which no statement assigns — so `main` fails before it
can reach its handler-registration code. -/
theorem c9_constructor_attribute_error (u : String) :
    mongoDatabaseNew u = .error (.attributeError "db_path") ∧
    mongoMain u = .error (.attributeError "db_path") :=
  ⟨rfl, rfl⟩

/-- Splitting a newline-join around a distinguished element: the joined
string contains that element verbatim between a prefix and a suffix. -/
theorem joinNl_mem_split (xs ys : List String) (a : String) (hx : xs ≠ []) :
    ∃ pre post, joinNl (xs ++ a :: ys) = pre ++ a ++ post := by
  cases ys with
  | nil =>
    refine ⟨joinNl xs ++ "\n", "", ?_⟩
    rw [joinNl_append xs [a] hx (by simp)]
    simp [joinNl, String.append_assoc, String.append_empty]
  | cons b t =>
    refine ⟨joinNl xs ++ "\n", "\n" ++ joinNl (b :: t), ?_⟩
    rw [joinNl_append xs (a :: b :: t) hx (by simp), joinNl_cons a (b :: t) (by simp)]
    simp [String.append_assoc]

/-- C3 (spec-modelled `append`): appending adds the text verbatim as the
new last entry, leaves every existing entry unchanged at its index, no
handled request of the program ever removes or reorders ledger entries,
and a render performed after the append contains the bullet line of the
new entry. -/
theorem c3_append_verbatim (l : List String) (t : String) :
    (ledgerAppend l t).length = l.length + 1 ∧
    (∀ i, i < l.length → (ledgerAppend l t)[i]? = l[i]?) ∧
    (ledgerAppend l t)[l.length]? = some t ∧
    (∀ (s : ServerState) (op : Op), ∃ new, (step s op).insights = s.insights ++ new) ∧
    (∃ pre post, synthesize_memo (ledgerAppend l t) = pre ++ ("- " ++ t) ++ post) := by
  refine ⟨by simp [ledgerAppend], ?_, ?_, ?_, ?_⟩
  · intro i hi
    simp [ledgerAppend, List.getElem?_append_left hi]
  · simp [ledgerAppend, List.getElem?_concat_length]
  · intro s op
    exact ⟨[], by cases op <;> simp [step]⟩
  · rcases eq_or_ne l [] with rfl | hl
    · obtain ⟨pre, post, hp⟩ :=
        joinNl_mem_split memoHeaderLines [] ("- " ++ t) (by decide)
      refine ⟨pre, post, ?_⟩
      rw [synthesize_memo_eq_joinNl _ (by simp [ledgerAppend])]
      simpa [ledgerAppend, memoSummaryLines] using hp
    · obtain ⟨pre, post, hp⟩ :=
        joinNl_mem_split (memoHeaderLines ++ l.map (fun i => "- " ++ i))
          (memoSummaryLines (l.length + 1)) ("- " ++ t) (by simp [memoHeaderLines])
      refine ⟨pre, post, ?_⟩
      rw [synthesize_memo_eq_joinNl _ (by simp [ledgerAppend])]
      rw [show memoHeaderLines ++
            ((ledgerAppend l t).map (fun i => "- " ++ i) ++
              memoSummaryLines (ledgerAppend l t).length) =
          (memoHeaderLines ++ l.map (fun i => "- " ++ i)) ++
            (("- " ++ t) :: memoSummaryLines (l.length + 1)) from by
        simp [ledgerAppend, List.append_assoc]]
      exact hp

/-- C3 witness: the statement instantiated at ledger `["A"]` and text
`"B"`, with the existing-entry hypothesis discharged at index 0. -/
theorem c3_append_verbatim_witness :
    (0 < (["A"] : List String).length ∧ (ledgerAppend ["A"] "B")[0]? = (["A"] : List String)[0]?) ∧
    (ledgerAppend ["A"] "B")[(["A"] : List String).length]? = some "B" :=
  ⟨⟨by decide, (c3_append_verbatim ["A"] "B").2.1 0 (by decide)⟩,
    (c3_append_verbatim ["A"] "B").2.2.1⟩

/-- C5: a resource read with a non-memo scheme yields an error; a read
whose stripped path is not the single literal segment `insights` yields
an error; a read of the exact identifier `memo://insights` always
succeeds and returns the synthesized memo string — in particular, on the
empty ledger it returns the sentinel. -/
theorem c5_read_resource (insights : List String) (uri : Uri) :
    (uri.scheme ≠ "memo" → ∃ e, handle_read_resource insights uri = .error e) ∧
    (pyStrReplace (Uri.toStr uri) "memo://" "" ≠ "insights" →
      ∃ e, handle_read_resource insights uri = .error e) ∧
    (handle_read_resource insights ⟨"memo", "insights"⟩ = .ok (synthesize_memo insights)) ∧
    (handle_read_resource [] ⟨"memo", "insights"⟩ = .ok emptyLedgerSentinel) := by
  refine ⟨?_, ?_, rfl, rfl⟩
  · intro h
    exact ⟨.valueError ("Unsupported URI scheme: " ++ uri.scheme),
      by simp [handle_read_resource, h]⟩
  · intro h
    by_cases hs : uri.scheme = "memo"
    · exact ⟨.valueError ("Unknown resource path: " ++ pyStrReplace uri.toStr "memo://" ""),
        by simp [handle_read_resource, hs, h]⟩
    · exact ⟨.valueError ("Unsupported URI scheme: " ++ uri.scheme),
        by simp [handle_read_resource, hs]⟩

/-- C5 witness: the error branches instantiated at the unsupported
scheme `http://insights` and at the unknown path `memo://other`, and
the success branch at the empty ledger. -/
theorem c5_read_resource_witness :
    (∃ e, handle_read_resource [] ⟨"http", "insights"⟩ = .error e) ∧
    (∃ e, handle_read_resource [] ⟨"memo", "other"⟩ = .error e) :=
  ⟨(c5_read_resource [] ⟨"http", "insights"⟩).1 (by decide),
    (c5_read_resource [] ⟨"memo", "other"⟩).2.1 (by decide)⟩

/-- C8: every state the server can reach from startup has an empty
insight ledger — no exposed tool, resource, or prompt handler ever
appends to it — and a successful read of `memo://insights` in any
reachable state returns exactly the sentinel string. -/
theorem c8_reachable_ledger_empty (s : ServerState) (h : Reachable s) :
    s.insights = [] ∧
    handle_read_resource s.insights ⟨"memo", "insights"⟩ = .ok emptyLedgerSentinel := by
  have he : s.insights = [] := by
    induction h with
    | init => rfl
    | step s' op hs ih => cases op <;> simpa [step] using ih
  exact ⟨he, by rw [he]; rfl⟩

/-- C8 witness: the statement instantiated at the startup state. -/
theorem c8_reachable_ledger_empty_witness :
    (⟨[]⟩ : ServerState).insights = [] ∧
    handle_read_resource (⟨[]⟩ : ServerState).insights ⟨"memo", "insights"⟩ =
      .ok emptyLedgerSentinel :=
  c8_reachable_ledger_empty ⟨[]⟩ Reachable.init

/-- C10: any tool call whose argument bag is `None` or lacks a
`collection` key — the declared schemas of `serverInfo` and
`listCollections` require no arguments at all — makes the dispatcher
raise an uncaught exception from the pre-`try` prelude instead of
returning an in-band `"Error: ..."` text. -/
theorem c10_prelude_uncaught (env : Env) (name : String)
    (args : Option (List (String × PyValue)))
    (h : args = Option.none ∨ ∃ bag, args = some bag ∧ dictGet bag "collection" = Option.none) :
    (∃ e, handle_call_tool env name args = .error e) ∧
    toolRequired "serverInfo" = some [] ∧ toolRequired "listCollections" = some [] := by
  refine ⟨?_, rfl, rfl⟩
  rcases h with rfl | ⟨bag, rfl, hb⟩
  · cases hd : env.get_database with
    | error e => exact ⟨e, by simp [handle_call_tool, hd, Except.bind]⟩
    | ok d =>
      exact ⟨.typeError "NoneType object is not subscriptable",
        by simp [handle_call_tool, hd, Except.bind]⟩
  · cases hd : env.get_database with
    | error e => exact ⟨e, by simp [handle_call_tool, hd, Except.bind]⟩
    | ok d => exact ⟨.keyError "collection", by simp [handle_call_tool, hd, hb, Except.bind]⟩

/-- C10 witness: a `serverInfo` call with no argument bag escapes the
dispatcher as an uncaught exception. -/
theorem c10_prelude_uncaught_witness :
    (∃ e, handle_call_tool testEnv "serverInfo" Option.none = .error e) ∧
    toolRequired "serverInfo" = some [] ∧ toolRequired "listCollections" = some [] :=
  c10_prelude_uncaught testEnv "serverInfo" Option.none (Or.inl rfl)

theorem ok_of_map_ne_nil {α : Type} (x : Except PyExn α) (f : α → List TextContent)
    (hf : ∀ a, f a ≠ []) (r : List TextContent) (h : x.map f = .ok r) : r ≠ [] := by
  cases x with
  | error e => simp [Except.map] at h
  | ok a =>
    simp [Except.map] at h
    exact h ▸ hf a

theorem ok_of_bind_ne_nil {α : Type} (x : Except PyExn α)
    (g : α → Except PyExn (List TextContent))
    (hg : ∀ a r, g a = .ok r → r ≠ []) (r : List TextContent)
    (h : x.bind g = .ok r) : r ≠ [] := by
  cases x with
  | error e => simp [Except.bind] at h
  | ok a => exact hg a r (by simpa [Except.bind] using h)

/-- Every successful result list the dispatcher body produces is a
non-empty list of text items. -/
theorem callToolBody_ok_ne_nil (env : Env) (name : String)
    (bag : List (String × PyValue)) (cn : String) (r : List TextContent)
    (h : callToolBody env name bag cn = .ok r) : r ≠ [] := by
  simp only [callToolBody] at h
  repeat' split at h
  all_goals
    first
    | (exact ok_of_bind_ne_nil _ _
        (fun a r' h' => ok_of_map_ne_nil _ _ (fun _ => by simp) r' h') r h)
    | (exact ok_of_map_ne_nil _ _ (fun _ => by simp) r h)
    | simp at h

/-- C4 (amended): for every tool call whose argument bag binds
`collection` to a string, the outcome splits along the pre-`try`
prelude of line 353.  When the prelude succeeds — `get_database()`
returns the default database and the collection name passes pymongo
validation — the host always receives a successful response envelope
with a non-empty result list, any exception raised inside the dispatch
body is converted to the in-band text `"Error: " ++ str(e)`, and a
request naming an unknown tool yields exactly the in-band error text,
never a protocol-level fault and never a silent no-op.  When the
prelude itself fails — `ConfigurationError` from `get_database()` or
`InvalidName` from `get_collection` — the exception escapes uncaught. -/
theorem c4_dispatcher_inband (env : Env) (name : String) (bag : List (String × PyValue))
    (cn : String) (hc : dictGet bag "collection" = some (.str cn)) :
    (∀ d, env.get_database = .ok d → checkCollectionName cn = .ok () →
      (∃ out, handle_call_tool env name (some bag) = .ok out ∧ out ≠ []) ∧
      (∀ e, callToolBody env name bag cn = .error e →
        handle_call_tool env name (some bag) = .ok [{ text := "Error: " ++ e.msg }]) ∧
      (name ∉ (["query", "aggregate", "serverInfo", "listCollections", "count"] : List String) →
        handle_call_tool env name (some bag) =
          .ok [{ text := "Error: Unknown tool: " ++ name }])) ∧
    (∀ e, env.get_database = .error e →
      handle_call_tool env name (some bag) = .error e) ∧
    (∀ d e, env.get_database = .ok d → checkCollectionName cn = .error e →
      handle_call_tool env name (some bag) = .error e) := by
  refine ⟨?_, ?_, ?_⟩
  · intro d hd hn
    have hh : handle_call_tool env name (some bag) =
        .ok (runBody (callToolBody env name bag cn)) := by
      simp [handle_call_tool, hc, hd, hn, Except.bind, Except.map]
    refine ⟨⟨runBody (callToolBody env name bag cn), hh, ?_⟩, ?_, ?_⟩
    · cases hb : callToolBody env name bag cn with
      | error e => simp [runBody]
      | ok r => simpa [runBody] using callToolBody_ok_ne_nil env name bag cn r hb
    · intro e he
      rw [hh, he]
      simp [runBody]
    · intro hu
      have h1 : ¬(name = "query") := fun h => hu (by simp [h])
      have h2 : ¬(name = "aggregate") := fun h => hu (by simp [h])
      have h3 : ¬(name = "serverInfo") := fun h => hu (by simp [h])
      have h4 : ¬(name = "listCollections") := fun h => hu (by simp [h])
      have h5 : ¬(name = "count") := fun h => hu (by simp [h])
      have hb : callToolBody env name bag cn =
          .error (.valueError ("Unknown tool: " ++ name)) := by
        simp [callToolBody, h1, h2, h3, h4, h5]
      have hlit : ("Error: " : String) ++ "Unknown tool: " = "Error: Unknown tool: " := by
        decide
      rw [hh, hb]
      simp only [runBody, PyExn.msg]
      rw [← String.append_assoc, hlit]
  · intro e he
    simp [handle_call_tool, he, Except.bind]
  · intro d e hd he
    simp [handle_call_tool, hc, hd, he, Except.bind, Except.map]

/-- C4 (counterexample): a `serverInfo` call with argument bag `None` —
a failure the claim says is caught and returned in-band — escapes the
dispatcher as an uncaught exception, because `arguments["collection"]`
is evaluated before the `try:`. -/
theorem c4_counterexample :
    handle_call_tool testEnv "serverInfo" Option.none =
      .error (.typeError "NoneType object is not subscriptable") := rfl

/-- C4 witness: an unknown tool name with a well-formed argument bag,
a default database, and a valid collection name yields the in-band
error text inside a successful envelope. -/
theorem c4_dispatcher_inband_witness :
    handle_call_tool testEnv "dropDatabase" (some [("collection", PyValue.str "c")]) =
      .ok [{ text := "Error: Unknown tool: " ++ "dropDatabase" }] :=
  ((c4_dispatcher_inband testEnv "dropDatabase" [("collection", PyValue.str "c")] "c"
    rfl).1 "test-db" rfl rfl).2.2 (by decide)

/-- C6 (amended): in the dispatcher of src/mongo.py, for a `query` call
whose pre-`try` prelude succeeds (default database available, string
collection name passing pymongo validation): a collection whose name
starts with `system.` is denied with the in-band error text instead of
forwarding a find; on any other collection, whenever the filter
argument resolves (absent, a dict, or a JSON string that parses) the
translated filter, limit and projection are forwarded to the driver
`find`, and a filter string that fails to parse yields an in-band error
without reaching `find`.  A collection name failing pymongo validation
— such as `system..users`, which starts with `system.` — instead
escapes uncaught before the `try:`, with no in-band denial.  The
`query` tool of src/src/mcp_server_mongo/server.py performs no
system-collection check at all. -/
theorem c6_query_system_denied (env : Env) (bag : List (String × PyValue)) (cn : String)
    (hc : dictGet bag "collection" = some (.str cn)) :
    (∀ d, env.get_database = .ok d → checkCollectionName cn = .ok () →
      (pyStartsWith cn "system." = true →
        handle_call_tool env "query" (some bag) =
          .ok [{ text := "Error: Access to system collections is not allowed" }]) ∧
      (pyStartsWith cn "system." = false →
        (∀ fil, queryFilter env bag = .ok fil →
          handle_call_tool env "query" (some bag) =
            .ok (runBody ((env.find cn fil (argGetD bag "limit" (.num 100))
              (argGetD bag "projection" (.dict []))).map
                (fun results => [{ text := results }])))) ∧
        (∀ e, queryFilter env bag = .error e →
          handle_call_tool env "query" (some bag) =
            .ok [{ text := "Error: " ++ e.msg }]))) ∧
    (∀ d e, env.get_database = .ok d → checkCollectionName cn = .error e →
      handle_call_tool env "query" (some bag) = .error e) := by
  constructor
  · intro d hd hn
    have hh : handle_call_tool env "query" (some bag) =
        .ok (runBody (callToolBody env "query" bag cn)) := by
      simp [handle_call_tool, hc, hd, hn, Except.bind, Except.map]
    constructor
    · intro hs
      have hb : callToolBody env "query" bag cn =
          .error (.valueError "Access to system collections is not allowed") := by
        simp [callToolBody, hs]
      have hlit : ("Error: " : String) ++ "Access to system collections is not allowed" =
          "Error: Access to system collections is not allowed" := by decide
      rw [hh, hb]
      simp [runBody, PyExn.msg, hlit]
    · intro hs
      have hb : callToolBody env "query" bag cn =
          (queryFilter env bag).bind (fun fil =>
            (env.find cn fil (argGetD bag "limit" (.num 100))
              (argGetD bag "projection" (.dict []))).map
                (fun results => [{ text := results }])) := by
        simp [callToolBody, hs]
      constructor
      · intro fil hf
        rw [hh, hb, hf]
        simp [Except.bind]
      · intro e hf
        rw [hh, hb, hf]
        simp [Except.bind, runBody]
  · intro d e hd he
    simp [handle_call_tool, hc, hd, he, Except.bind, Except.map]

/-- C6 (counterexample): the `query` tool of
src/src/mcp_server_mongo/server.py, invoked on the reserved collection
`system.users`, forwards the find to the driver and returns its result —
no denial occurs, contradicting the claim for this variant. -/
theorem c6_counterexample :
    FastServer.query testEnv "system.users" (.dict []) (.dict []) (.num 100) =
      .ok "find-results" := rfl

/-- C6 witness: the denial branch instantiated at the valid collection
name `system.users` with a default database available. -/
theorem c6_query_system_denied_witness :
    handle_call_tool testEnv "query" (some [("collection", PyValue.str "system.users")]) =
      .ok [{ text := "Error: Access to system collections is not allowed" }] :=
  ((c6_query_system_denied testEnv [("collection", PyValue.str "system.users")]
    "system.users" rfl).1 "test-db" rfl rfl).1 rfl
